import Mathlib

/-!
Shallow embedding of src/calculator.py (unit-economics calculator for a
jewelry seller, a yoga studio and a retail shop).

Modelling conventions:
* Python floats are modelled as exact rationals.
* A JSON object with a fixed set of keys read by the code is modelled as a
  structure whose fields are `Option` values; `item.get(key, default)` and
  the helper `_safe_get` become `Option.getD`.
* The yoga corporate sub-object is modelled as an association list of
  string keys to values, because the code looks it up by string key and a
  configuration may carry keys the code never reads.  Python dict keys are
  unique, and lookup takes the first (hence only) binding of a key.
* The overheads mapping is modelled as an association list of labels to
  amounts; only the sum of its values is read.
* The per-line-item loops of compute_jewelry and compute_retail, which
  append to a result list and accumulate two running totals, are modelled
  as left folds over the same accumulator triple.
-/

namespace UnitJEW

/-- The PnL dataclass from calculator.py. -/
structure PnL where
  revenue : ℚ
  variable_costs : ℚ
  fixed_costs : ℚ
  contribution_margin : ℚ
  profit_before_tax : ℚ
  break_even_units : Option ℚ
  break_even_fill_rate : Option ℚ
deriving DecidableEq

/-- Function _sum_overheads: sum of the values of the overhead mapping. -/
def sum_overheads (overheads : List (String × ℚ)) : ℚ :=
  (overheads.map (fun kv => kv.2)).sum

/-- One channel/category line item of the input configuration.  Every field
the code reads through _safe_get (default 0.0) or .get (default name) is an
Option; a missing key is `none`. -/
structure LineItem where
  name : Option String
  units : Option ℚ
  avg_price : Option ℚ
  unit_cost : Option ℚ
  discount_rate : Option ℚ
  return_rate : Option ℚ
  payment_fee_rate : Option ℚ
  channel_fee_rate : Option ℚ
  variable_ops_cost : Option ℚ
deriving DecidableEq

/-- The per-item result record appended to channel_results / cat_results. -/
structure ItemResult where
  name : String
  gross_revenue : ℚ
  net_revenue : ℚ
  sold_units : ℚ
  variable_costs : ℚ
  contribution : ℚ
  margin_per_unit : ℚ
  break_even_units : Option ℚ
deriving DecidableEq

/-- Input configuration of compute_jewelry: config.get("channels", []) and
config.get("overheads", \x7b\x7d). -/
structure JewelryConfig where
  channels : Option (List LineItem)
  overheads : Option (List (String × ℚ))
deriving DecidableEq

/-- Input configuration of compute_retail: config.get("categories", []) and
config.get("overheads", \x7b\x7d). -/
structure RetailConfig where
  categories : Option (List LineItem)
  overheads : Option (List (String × ℚ))
deriving DecidableEq

/-- Output dictionary of compute_jewelry. -/
structure JewelryOutput where
  pnl : PnL
  channels : List ItemResult
  fixed_costs_detail : List (String × ℚ)
deriving DecidableEq

/-- Output dictionary of compute_retail. -/
structure RetailOutput where
  pnl : PnL
  categories : List ItemResult
  fixed_costs_detail : List (String × ℚ)
deriving DecidableEq

/-- Loop body of compute_jewelry (lines 40-77 of calculator.py): the
arithmetic performed on one channel, producing the appended record.
fixed_costs is the segment-level total, computed once outside the loop. -/
def jewelryChannelResult (fixed_costs : ℚ) (channel : LineItem) : ItemResult :=
  let units := channel.units.getD 0
  let price := channel.avg_price.getD 0
  let unit_cost := channel.unit_cost.getD 0
  let discount_rate := channel.discount_rate.getD 0
  let return_rate := channel.return_rate.getD 0
  let payment_fee_rate := channel.payment_fee_rate.getD 0
  let channel_fee_rate := channel.channel_fee_rate.getD 0
  let variable_ops_cost := channel.variable_ops_cost.getD 0
  let effective_price := price * (1 - discount_rate)
  let sold_units := units * (1 - return_rate)
  let net_revenue := sold_units * effective_price
  let variable_costs := sold_units * (unit_cost + variable_ops_cost)
  let payment_fees := net_revenue * payment_fee_rate
  let channel_fees := net_revenue * channel_fee_rate
  let variable_total := variable_costs + payment_fees + channel_fees
  let contribution := net_revenue - variable_total
  let margin_per_unit := if sold_units = 0 then 0 else contribution / sold_units
  let break_even_units := if margin_per_unit > 0 then some (fixed_costs / margin_per_unit) else none
  { name := channel.name.getD "channel"
    gross_revenue := units * price
    net_revenue := net_revenue
    sold_units := sold_units
    variable_costs := variable_total
    contribution := contribution
    margin_per_unit := margin_per_unit
    break_even_units := break_even_units }

/-- The channel loop of compute_jewelry: builds channel_results and
accumulates total_revenue and total_variable_costs (both start at 0.0). -/
def jewelryFold (fixed_costs : ℚ) (channels : List LineItem) :
    List ItemResult × ℚ × ℚ :=
  channels.foldl
    (fun acc channel =>
      let r := jewelryChannelResult fixed_costs channel
      (acc.1 ++ [r], acc.2.1 + r.net_revenue, acc.2.2 + r.variable_costs))
    ([], 0, 0)

/-- Function compute_jewelry of calculator.py. -/
def compute_jewelry (config : JewelryConfig) : JewelryOutput :=
  let channels := config.channels.getD []
  let overheads := config.overheads.getD []
  let fixed_costs := sum_overheads overheads
  let acc := jewelryFold fixed_costs channels
  let channel_results := acc.1
  let total_revenue := acc.2.1
  let total_variable_costs := acc.2.2
  let contribution_margin := total_revenue - total_variable_costs
  let profit_before_tax := contribution_margin - fixed_costs
  { pnl :=
      { revenue := total_revenue
        variable_costs := total_variable_costs
        fixed_costs := fixed_costs
        contribution_margin := contribution_margin
        profit_before_tax := profit_before_tax
        break_even_units :=
          match channel_results with
          | [] => none
          | r :: _ => r.break_even_units
        break_even_fill_rate := none }
    channels := channel_results
    fixed_costs_detail := overheads }

/-- Loop body of compute_retail (lines 108-145 of calculator.py): identical
arithmetic to the jewelry loop, with the default name "category". -/
def retailCategoryResult (fixed_costs : ℚ) (category : LineItem) : ItemResult :=
  let units := category.units.getD 0
  let price := category.avg_price.getD 0
  let unit_cost := category.unit_cost.getD 0
  let discount_rate := category.discount_rate.getD 0
  let return_rate := category.return_rate.getD 0
  let payment_fee_rate := category.payment_fee_rate.getD 0
  let channel_fee_rate := category.channel_fee_rate.getD 0
  let variable_ops_cost := category.variable_ops_cost.getD 0
  let effective_price := price * (1 - discount_rate)
  let sold_units := units * (1 - return_rate)
  let net_revenue := sold_units * effective_price
  let variable_costs := sold_units * (unit_cost + variable_ops_cost)
  let payment_fees := net_revenue * payment_fee_rate
  let channel_fees := net_revenue * channel_fee_rate
  let variable_total := variable_costs + payment_fees + channel_fees
  let contribution := net_revenue - variable_total
  let margin_per_unit := if sold_units = 0 then 0 else contribution / sold_units
  let break_even_units := if margin_per_unit > 0 then some (fixed_costs / margin_per_unit) else none
  { name := category.name.getD "category"
    gross_revenue := units * price
    net_revenue := net_revenue
    sold_units := sold_units
    variable_costs := variable_total
    contribution := contribution
    margin_per_unit := margin_per_unit
    break_even_units := break_even_units }

/-- The category loop of compute_retail. -/
def retailFold (fixed_costs : ℚ) (categories : List LineItem) :
    List ItemResult × ℚ × ℚ :=
  categories.foldl
    (fun acc category =>
      let r := retailCategoryResult fixed_costs category
      (acc.1 ++ [r], acc.2.1 + r.net_revenue, acc.2.2 + r.variable_costs))
    ([], 0, 0)

/-- Function compute_retail of calculator.py. -/
def compute_retail (config : RetailConfig) : RetailOutput :=
  let categories := config.categories.getD []
  let overheads := config.overheads.getD []
  let fixed_costs := sum_overheads overheads
  let acc := retailFold fixed_costs categories
  let cat_results := acc.1
  let total_revenue := acc.2.1
  let total_variable_costs := acc.2.2
  let contribution_margin := total_revenue - total_variable_costs
  let profit_before_tax := contribution_margin - fixed_costs
  { pnl :=
      { revenue := total_revenue
        variable_costs := total_variable_costs
        fixed_costs := fixed_costs
        contribution_margin := contribution_margin
        profit_before_tax := profit_before_tax
        break_even_units :=
          match cat_results with
          | [] => none
          | r :: _ => r.break_even_units
        break_even_fill_rate := none }
    categories := cat_results
    fixed_costs_detail := overheads }

/-- A value stored in the corporate sub-dictionary: a number or a boolean
(the only kinds the code meaningfully consumes there). -/
inductive CVal where
  | num (q : ℚ)
  | bool (b : Bool)
deriving DecidableEq

/-- Python truthiness of a corporate value, as used by the condition
`if replace_public_slots`. -/
def CVal.truthy : CVal → Bool
  | .num q => decide (q ≠ 0)
  | .bool b => b

/-- Python float() coercion applied by _safe_get to a looked-up value. -/
def CVal.toNum : CVal → ℚ
  | .num q => q
  | .bool b => if b then 1 else 0

/-- Dictionary lookup by string key (first binding; dict keys are unique). -/
def dictGet (d : List (String × CVal)) (key : String) : Option CVal :=
  (d.find? (fun kv => kv.1 = key)).map (fun kv => kv.2)

/-- The classes sub-configuration of the yoga segment. -/
structure ClassesCfg where
  slots_per_day : Option ℚ
  days_per_week : Option ℚ
  weeks_per_month : Option ℚ
  fill_rate : Option ℚ
deriving DecidableEq

/-- The pricing sub-configuration of the yoga segment. -/
structure YogaPricing where
  single_class_price : Option ℚ
  discount_rate : Option ℚ
  corporate_day_rate : Option ℚ
  corporate_variable_cost_rate : Option ℚ
deriving DecidableEq

/-- Input configuration of compute_yoga. -/
structure YogaConfig where
  overheads : Option (List (String × ℚ))
  classes : Option ClassesCfg
  capacity : Option ℚ
  pricing : Option YogaPricing
  payment_fee_rate : Option ℚ
  trainer_payout_rate : Option ℚ
  variable_cost_per_attendee : Option ℚ
  corporate : Option (List (String × CVal))
deriving DecidableEq

/-- The operating_assumptions block of the compute_yoga output. -/
structure OperatingAssumptions where
  total_slots : ℚ
  public_slots : ℚ
  avg_attendees : ℚ
  total_attendees : ℚ
deriving DecidableEq

/-- The corporate block of the compute_yoga output. -/
structure CorporateReport where
  revenue : ℚ
  contribution : ℚ
deriving DecidableEq

/-- Output dictionary of compute_yoga. -/
structure YogaOutput where
  pnl : PnL
  operating_assumptions : OperatingAssumptions
  corporate : CorporateReport
  fixed_costs_detail : List (String × ℚ)
deriving DecidableEq

/-- Function compute_yoga of calculator.py (lines 167-240). -/
def compute_yoga (config : YogaConfig) : YogaOutput :=
  let overheads := config.overheads.getD []
  let fixed_costs := sum_overheads overheads
  let slots_per_day := (config.classes.bind (fun c => c.slots_per_day)).getD 0
  let days_per_week := (config.classes.bind (fun c => c.days_per_week)).getD 0
  let weeks_per_month := (config.classes.bind (fun c => c.weeks_per_month)).getD (43 / 10)
  let fill_rate := (config.classes.bind (fun c => c.fill_rate)).getD 0
  let capacity := config.capacity.getD 0
  let total_slots := slots_per_day * days_per_week * weeks_per_month
  let class_price := (config.pricing.bind (fun p => p.single_class_price)).getD 0
  let discount_rate := (config.pricing.bind (fun p => p.discount_rate)).getD 0
  let payment_fee_rate := config.payment_fee_rate.getD 0
  let trainer_payout_rate := config.trainer_payout_rate.getD 0
  let variable_cost_per_attendee := config.variable_cost_per_attendee.getD 0
  let corporate := config.corporate.getD []
  let corporate_days := ((dictGet corporate "days_per_month").map CVal.toNum).getD 0
  let corporate_day_rate := (config.pricing.bind (fun p => p.corporate_day_rate)).getD 0
  let corporate_variable_rate := (config.pricing.bind (fun p => p.corporate_variable_cost_rate)).getD 0
  let replace_public_slots := (dictGet corporate "public_slots_replaced").getD (.bool true)
  let effective_price := class_price * (1 - discount_rate)
  let corporate_revenue := corporate_days * corporate_day_rate
  let corporate_variable := corporate_revenue * corporate_variable_rate
  let corporate_contribution := corporate_revenue - corporate_variable
  let public_slots :=
    max (if replace_public_slots.truthy then total_slots - corporate_days * slots_per_day else total_slots) 0
  let avg_attendees := capacity * fill_rate
  let total_attendees := public_slots * avg_attendees
  let net_revenue := total_attendees * effective_price
  let trainer_payout := net_revenue * trainer_payout_rate
  let payment_fees := net_revenue * payment_fee_rate
  let variable_costs := total_attendees * variable_cost_per_attendee
  let variable_total := variable_costs + trainer_payout + payment_fees
  let total_revenue := net_revenue + corporate_revenue
  let total_variable_costs := variable_total + corporate_variable
  let contribution_margin := total_revenue - total_variable_costs
  let profit_before_tax := contribution_margin - fixed_costs
  let contribution_per_attendee :=
    effective_price * (1 - trainer_payout_rate - payment_fee_rate) - variable_cost_per_attendee
  let break_even_fill_rate :=
    if contribution_per_attendee > 0 ∧ public_slots * capacity > 0 then
      some (max (fixed_costs - corporate_contribution) 0 / contribution_per_attendee
        / (public_slots * capacity))
    else none
  { pnl :=
      { revenue := total_revenue
        variable_costs := total_variable_costs
        fixed_costs := fixed_costs
        contribution_margin := contribution_margin
        profit_before_tax := profit_before_tax
        break_even_units := none
        break_even_fill_rate := break_even_fill_rate }
    operating_assumptions :=
      { total_slots := total_slots
        public_slots := public_slots
        avg_attendees := avg_attendees
        total_attendees := total_attendees }
    corporate :=
      { revenue := corporate_revenue
        contribution := corporate_contribution }
    fixed_costs_detail := overheads }

/-- The tax configuration consumed by aggregate_results. -/
structure TaxConfig where
  profit_tax_rate : Option ℚ
deriving DecidableEq

/-- Output dictionary of aggregate_results. -/
structure AggregateOutput where
  revenue : ℚ
  variable_costs : ℚ
  fixed_costs : ℚ
  contribution_margin : ℚ
  profit_before_tax : ℚ
  tax_expense : ℚ
  profit_after_tax : ℚ
deriving DecidableEq

/-- Function aggregate_results of calculator.py (lines 243-263): sums the
pnl fields of the three segments in order jewelry, yoga, retail. -/
def aggregate_results (jewelry : JewelryOutput) (yoga : YogaOutput)
    (retail : RetailOutput) (tax : TaxConfig) : AggregateOutput :=
  let total_revenue := jewelry.pnl.revenue + yoga.pnl.revenue + retail.pnl.revenue
  let total_variable := jewelry.pnl.variable_costs + yoga.pnl.variable_costs + retail.pnl.variable_costs
  let total_fixed := jewelry.pnl.fixed_costs + yoga.pnl.fixed_costs + retail.pnl.fixed_costs
  let contribution_margin := total_revenue - total_variable
  let profit_before_tax := contribution_margin - total_fixed
  let profit_tax_rate := tax.profit_tax_rate.getD 0
  let tax_expense := if profit_before_tax > 0 then profit_before_tax * profit_tax_rate else 0
  let profit_after_tax := profit_before_tax - tax_expense
  { revenue := total_revenue
    variable_costs := total_variable
    fixed_costs := total_fixed
    contribution_margin := contribution_margin
    profit_before_tax := profit_before_tax
    tax_expense := tax_expense
    profit_after_tax := profit_after_tax }

/-! Concrete test inputs used by counterexamples and witnesses. -/

/-- A yoga configuration whose corporate sub-object sets the key
replace_public_slots (the name the spec uses) to false; the code reads the
key public_slots_replaced instead, so displacement still happens.
Slots: 4 per day, 5 days, 5 weeks, fill rate 1, capacity 10, 2 corporate
days per month. -/
def yogaCfgFlagMisnamed : YogaConfig :=
  { overheads := none
    classes := some ⟨some 4, some 5, some 5, some 1⟩
    capacity := some 10
    pricing := none
    payment_fee_rate := none
    trainer_payout_rate := none
    variable_cost_per_attendee := none
    corporate := some [("replace_public_slots", CVal.bool false),
                       ("days_per_month", CVal.num 2)] }

/-- Scenario C segment PnL: revenue 1000, variable costs 400, fixed 200. -/
def pnlScenC : PnL :=
  { revenue := 1000
    variable_costs := 400
    fixed_costs := 200
    contribution_margin := 600
    profit_before_tax := 400
    break_even_units := none
    break_even_fill_rate := none }

/-- Scenario C jewelry segment output. -/
def jewelryOutScenC : JewelryOutput := ⟨pnlScenC, [], []⟩

/-- Scenario C yoga segment output. -/
def yogaOutScenC : YogaOutput := ⟨pnlScenC, ⟨0, 0, 0, 0⟩, ⟨0, 0⟩, []⟩

/-- Scenario C retail segment output. -/
def retailOutScenC : RetailOutput := ⟨pnlScenC, [], []⟩

/-- Scenario C tax configuration: profit tax rate 0.2. -/
def taxScenC : TaxConfig := ⟨some (1 / 5)⟩

/-- A simple profitable line item: 10 units at price 5 with unit cost 1,
all rates absent. -/
def itemProfitable : LineItem :=
  { name := none
    units := some 10
    avg_price := some 5
    unit_cost := some 1
    discount_rate := none
    return_rate := none
    payment_fee_rate := none
    channel_fee_rate := none
    variable_ops_cost := none }

/-- A line item with negative units (−10) and return rate 1/2; the rates
are in range but the unit count is not validated. -/
def itemNegUnits : LineItem :=
  { name := none
    units := some (-10)
    avg_price := none
    unit_cost := none
    discount_rate := none
    return_rate := some (1 / 2)
    payment_fee_rate := none
    channel_fee_rate := none
    variable_ops_cost := none }

/-- A line item with 100 gross units and return rate 1/20. -/
def itemScenA : LineItem :=
  { name := none
    units := some 100
    avg_price := some 50
    unit_cost := some 20
    discount_rate := some (1 / 10)
    return_rate := some (1 / 20)
    payment_fee_rate := some (1 / 50)
    channel_fee_rate := some (3 / 100)
    variable_ops_cost := some 1 }

/-- A yoga configuration with a positive per-attendee contribution:
price 20, no discounts or fees, 4 slots for 5 days over 5 weeks,
capacity 10, rent 500, no corporate contract. -/
def yogaCfgProfitable : YogaConfig :=
  { overheads := some [("rent", 500)]
    classes := some ⟨some 4, some 5, some 5, some 1⟩
    capacity := some 10
    pricing := some ⟨some 20, some 0, none, none⟩
    payment_fee_rate := none
    trainer_payout_rate := none
    variable_cost_per_attendee := none
    corporate := none }

/-- Scenario B yoga configuration from the spec. -/
def yogaCfgScenB : YogaConfig :=
  { overheads := some []
    classes := some ⟨some 4, some 5, some (43 / 10), some (3 / 5)⟩
    capacity := some 10
    pricing := some ⟨some 20, some 0, none, none⟩
    payment_fee_rate := some 0
    trainer_payout_rate := some 0
    variable_cost_per_attendee := some 0
    corporate := some [("days_per_month", CVal.num 0)] }

/-- A PnL agreeing with the Scenario C PnL on revenue, variable costs and
fixed costs but differing on every derived and break-even field. -/
def pnlScenCAlt : PnL :=
  { revenue := 1000
    variable_costs := 400
    fixed_costs := 200
    contribution_margin := 999
    profit_before_tax := -5
    break_even_units := some 7
    break_even_fill_rate := some (1 / 3) }

/-- A jewelry output with the alternative PnL and junk detail fields. -/
def jewelryOutScenCAlt : JewelryOutput :=
  ⟨pnlScenCAlt, [⟨"x", 1, 2, 3, 4, 5, 6, some 7⟩], [("junk", 42)]⟩

/-- A yoga output with the alternative PnL and junk detail fields. -/
def yogaOutScenCAlt : YogaOutput := ⟨pnlScenCAlt, ⟨9, 9, 9, 9⟩, ⟨8, 8⟩, [("junk2", 1)]⟩

/-- A retail output with the alternative PnL and junk detail fields. -/
def retailOutScenCAlt : RetailOutput := ⟨pnlScenCAlt, [], [("junk3", 2)]⟩

/-! Helper lemmas shared by the claim theorems. -/

/-- The guarded break-even division pattern yields none exactly when the
margin is non-positive. -/
theorem break_even_none_iff (fc m : ℚ) :
    (if m > 0 then some (fc / m) else none) = none ↔ m ≤ 0 := by
  by_cases h : m > 0
  · simp [h, not_le.mpr h]
  · simp [h, not_lt.mp h]

/-- Unfolding lemma for the accumulator loops: a left fold that appends the
per-item record and accumulates its net revenue and variable costs equals
the mapped list together with the two sums. -/
theorem foldl_items_eq (g : LineItem → ItemResult) (items : List LineItem)
    (acc : List ItemResult × ℚ × ℚ) :
    items.foldl
      (fun acc c =>
        let r := g c
        (acc.1 ++ [r], acc.2.1 + r.net_revenue, acc.2.2 + r.variable_costs))
      acc =
    (acc.1 ++ items.map g,
     acc.2.1 + (items.map (fun c => (g c).net_revenue)).sum,
     acc.2.2 + (items.map (fun c => (g c).variable_costs)).sum) := by
  induction items generalizing acc with
  | nil => simp
  | cons c rest ih => simp [ih, add_assoc]

theorem jewelryFold_eq (fixed_costs : ℚ) (channels : List LineItem) :
    jewelryFold fixed_costs channels =
      (channels.map (jewelryChannelResult fixed_costs),
       (channels.map (fun c => (jewelryChannelResult fixed_costs c).net_revenue)).sum,
       (channels.map (fun c => (jewelryChannelResult fixed_costs c).variable_costs)).sum) := by
  refine (foldl_items_eq (jewelryChannelResult fixed_costs) channels ([], 0, 0)).trans ?_
  simp

theorem retailFold_eq (fixed_costs : ℚ) (categories : List LineItem) :
    retailFold fixed_costs categories =
      (categories.map (retailCategoryResult fixed_costs),
       (categories.map (fun c => (retailCategoryResult fixed_costs c).net_revenue)).sum,
       (categories.map (fun c => (retailCategoryResult fixed_costs c).variable_costs)).sum) := by
  refine (foldl_items_eq (retailCategoryResult fixed_costs) categories ([], 0, 0)).trans ?_
  simp

theorem compute_jewelry_eq (config : JewelryConfig) :
    compute_jewelry config =
      { pnl :=
          { revenue := ((config.channels.getD []).map
              (fun c => (jewelryChannelResult (sum_overheads (config.overheads.getD [])) c).net_revenue)).sum
            variable_costs := ((config.channels.getD []).map
              (fun c => (jewelryChannelResult (sum_overheads (config.overheads.getD [])) c).variable_costs)).sum
            fixed_costs := sum_overheads (config.overheads.getD [])
            contribution_margin :=
              ((config.channels.getD []).map
                (fun c => (jewelryChannelResult (sum_overheads (config.overheads.getD [])) c).net_revenue)).sum -
              ((config.channels.getD []).map
                (fun c => (jewelryChannelResult (sum_overheads (config.overheads.getD [])) c).variable_costs)).sum
            profit_before_tax :=
              ((config.channels.getD []).map
                (fun c => (jewelryChannelResult (sum_overheads (config.overheads.getD [])) c).net_revenue)).sum -
              ((config.channels.getD []).map
                (fun c => (jewelryChannelResult (sum_overheads (config.overheads.getD [])) c).variable_costs)).sum -
              sum_overheads (config.overheads.getD [])
            break_even_units :=
              match (config.channels.getD []).map
                  (jewelryChannelResult (sum_overheads (config.overheads.getD []))) with
              | [] => none
              | r :: _ => r.break_even_units
            break_even_fill_rate := none }
        channels := (config.channels.getD []).map
          (jewelryChannelResult (sum_overheads (config.overheads.getD [])))
        fixed_costs_detail := config.overheads.getD [] } := by
  simp only [compute_jewelry, jewelryFold_eq]

theorem compute_retail_eq (config : RetailConfig) :
    compute_retail config =
      { pnl :=
          { revenue := ((config.categories.getD []).map
              (fun c => (retailCategoryResult (sum_overheads (config.overheads.getD [])) c).net_revenue)).sum
            variable_costs := ((config.categories.getD []).map
              (fun c => (retailCategoryResult (sum_overheads (config.overheads.getD [])) c).variable_costs)).sum
            fixed_costs := sum_overheads (config.overheads.getD [])
            contribution_margin :=
              ((config.categories.getD []).map
                (fun c => (retailCategoryResult (sum_overheads (config.overheads.getD [])) c).net_revenue)).sum -
              ((config.categories.getD []).map
                (fun c => (retailCategoryResult (sum_overheads (config.overheads.getD [])) c).variable_costs)).sum
            profit_before_tax :=
              ((config.categories.getD []).map
                (fun c => (retailCategoryResult (sum_overheads (config.overheads.getD [])) c).net_revenue)).sum -
              ((config.categories.getD []).map
                (fun c => (retailCategoryResult (sum_overheads (config.overheads.getD [])) c).variable_costs)).sum -
              sum_overheads (config.overheads.getD [])
            break_even_units :=
              match (config.categories.getD []).map
                  (retailCategoryResult (sum_overheads (config.overheads.getD []))) with
              | [] => none
              | r :: _ => r.break_even_units
            break_even_fill_rate := none }
        categories := (config.categories.getD []).map
          (retailCategoryResult (sum_overheads (config.overheads.getD [])))
        fixed_costs_detail := config.overheads.getD [] } := by
  simp only [compute_retail, retailFold_eq]

/-- C1: compute_jewelry processes each line item of the channels list in
input order, computing sold_units = units × (1 − return_rate),
net_revenue = sold_units × (price × (1 − discount_rate)),
variable_total = sold_units × (unit_cost + variable_ops_cost) +
net_revenue × payment_fee_rate + net_revenue × channel_fee_rate and
contribution = net_revenue − variable_total; the segment PnL has
revenue = Σ net_revenue, variable_costs = Σ variable_total,
contribution_margin = revenue − variable_costs and
profit_before_tax = contribution_margin − fixed_costs, where fixed_costs
is the sum of the overhead map values. -/
theorem compute_jewelry_line_item_formulas (config : JewelryConfig) :
    ((compute_jewelry config).channels.map (fun r => r.sold_units) =
      (config.channels.getD []).map (fun c =>
        c.units.getD 0 * (1 - c.return_rate.getD 0))) ∧
    ((compute_jewelry config).channels.map (fun r => r.net_revenue) =
      (config.channels.getD []).map (fun c =>
        c.units.getD 0 * (1 - c.return_rate.getD 0) *
          (c.avg_price.getD 0 * (1 - c.discount_rate.getD 0)))) ∧
    ((compute_jewelry config).channels.map (fun r => r.variable_costs) =
      (config.channels.getD []).map (fun c =>
        c.units.getD 0 * (1 - c.return_rate.getD 0) *
            (c.unit_cost.getD 0 + c.variable_ops_cost.getD 0) +
          c.units.getD 0 * (1 - c.return_rate.getD 0) *
              (c.avg_price.getD 0 * (1 - c.discount_rate.getD 0)) * c.payment_fee_rate.getD 0 +
          c.units.getD 0 * (1 - c.return_rate.getD 0) *
              (c.avg_price.getD 0 * (1 - c.discount_rate.getD 0)) * c.channel_fee_rate.getD 0)) ∧
    ((compute_jewelry config).channels.map (fun r => r.contribution) =
      (config.channels.getD []).map (fun c =>
        c.units.getD 0 * (1 - c.return_rate.getD 0) *
            (c.avg_price.getD 0 * (1 - c.discount_rate.getD 0)) -
          (c.units.getD 0 * (1 - c.return_rate.getD 0) *
              (c.unit_cost.getD 0 + c.variable_ops_cost.getD 0) +
            c.units.getD 0 * (1 - c.return_rate.getD 0) *
                (c.avg_price.getD 0 * (1 - c.discount_rate.getD 0)) * c.payment_fee_rate.getD 0 +
            c.units.getD 0 * (1 - c.return_rate.getD 0) *
                (c.avg_price.getD 0 * (1 - c.discount_rate.getD 0)) * c.channel_fee_rate.getD 0))) ∧
    (compute_jewelry config).pnl.revenue =
      ((compute_jewelry config).channels.map (fun r => r.net_revenue)).sum ∧
    (compute_jewelry config).pnl.variable_costs =
      ((compute_jewelry config).channels.map (fun r => r.variable_costs)).sum ∧
    (compute_jewelry config).pnl.fixed_costs = sum_overheads (config.overheads.getD []) ∧
    (compute_jewelry config).pnl.contribution_margin =
      (compute_jewelry config).pnl.revenue - (compute_jewelry config).pnl.variable_costs ∧
    (compute_jewelry config).pnl.profit_before_tax =
      (compute_jewelry config).pnl.contribution_margin - (compute_jewelry config).pnl.fixed_costs := by
  rw [compute_jewelry_eq]
  refine ⟨?_, ?_, ?_, ?_, ?_, ?_, rfl, rfl, rfl⟩ <;>
    simp [List.map_map] <;> first
      | rfl
      | (intro a _; rfl)

/-- C2 counterexample: a configuration whose corporate sub-object sets the
key replace_public_slots to false, yet public_slots is not
max(total_slots, 0): the code reads the key public_slots_replaced, so the
flag named replace_public_slots does not control displacement and corporate
days still reduce public slot capacity (92 = 100 − 2 × 4 instead of 100). -/
theorem replace_public_slots_key_counterexample :
    dictGet (yogaCfgFlagMisnamed.corporate.getD []) "replace_public_slots" =
      some (CVal.bool false) ∧
    (compute_yoga yogaCfgFlagMisnamed).operating_assumptions.total_slots = 100 ∧
    (compute_yoga yogaCfgFlagMisnamed).operating_assumptions.public_slots = 92 ∧
    (compute_yoga yogaCfgFlagMisnamed).operating_assumptions.public_slots ≠
      max (compute_yoga yogaCfgFlagMisnamed).operating_assumptions.total_slots 0 := by
  have h1 : dictGet [("replace_public_slots", CVal.bool false), ("days_per_month", CVal.num 2)]
      "public_slots_replaced" = none := rfl
  have h2 : dictGet [("replace_public_slots", CVal.bool false), ("days_per_month", CVal.num 2)]
      "days_per_month" = some (CVal.num 2) := rfl
  refine ⟨rfl, ?_, ?_, ?_⟩ <;>
    norm_num [compute_yoga, yogaCfgFlagMisnamed, h1, h2, CVal.truthy, CVal.toNum, max_def]

/-- C2 amended: the corporate sub-config flag is stored under the key
public_slots_replaced (not replace_public_slots), defaulting to true when
absent; public_slots = max(total_slots − corporate_days × slots_per_day, 0)
when the looked-up value is truthy and max(total_slots, 0) otherwise, so a
configuration whose corporate sub-config sets public_slots_replaced to
false keeps corporate days from reducing public slot capacity. -/
theorem public_slots_replaced_flag (config : YogaConfig) :
    (compute_yoga config).operating_assumptions.public_slots =
      if (((dictGet (config.corporate.getD []) "public_slots_replaced").getD
            (CVal.bool true)).truthy) then
        max ((compute_yoga config).operating_assumptions.total_slots -
          ((dictGet (config.corporate.getD []) "days_per_month").map CVal.toNum).getD 0 *
            (config.classes.bind (fun c => c.slots_per_day)).getD 0) 0
      else
        max (compute_yoga config).operating_assumptions.total_slots 0 := by
  cases h : (((dictGet (config.corporate.getD []) "public_slots_replaced").getD
      (CVal.bool true)).truthy) <;>
    simp [compute_yoga, h]

/-- C3: in both compute_jewelry and compute_retail the segment PnL field
break_even_units equals the break_even_units of the first line-item result
when the list is non-empty; for an empty list it is none, revenue and
variable costs are 0, and profit_before_tax = −fixed_costs. -/
theorem break_even_from_first_item (jc : JewelryConfig) (rc : RetailConfig) :
    ((compute_jewelry jc).pnl.break_even_units =
      match (compute_jewelry jc).channels with
      | [] => none
      | r :: _ => r.break_even_units) ∧
    ((compute_retail rc).pnl.break_even_units =
      match (compute_retail rc).categories with
      | [] => none
      | r :: _ => r.break_even_units) ∧
    (jc.channels.getD [] = [] →
      (compute_jewelry jc).pnl.revenue = 0 ∧
      (compute_jewelry jc).pnl.variable_costs = 0 ∧
      (compute_jewelry jc).pnl.break_even_units = none ∧
      (compute_jewelry jc).pnl.profit_before_tax =
        -sum_overheads (jc.overheads.getD [])) ∧
    (rc.categories.getD [] = [] →
      (compute_retail rc).pnl.revenue = 0 ∧
      (compute_retail rc).pnl.variable_costs = 0 ∧
      (compute_retail rc).pnl.break_even_units = none ∧
      (compute_retail rc).pnl.profit_before_tax =
        -sum_overheads (rc.overheads.getD [])) := by
  rw [compute_jewelry_eq, compute_retail_eq]
  refine ⟨rfl, rfl, ?_, ?_⟩ <;> (intro h; rw [h]; simp)

/-- C3 witness: the empty jewelry channel list with overhead rent 100 gives
a null segment break-even and profit −100, and the empty retail
configuration gives zero revenue. -/
theorem break_even_from_first_item_witness :
    (compute_jewelry ⟨some [], some [("rent", 100)]⟩).pnl.break_even_units = none ∧
    (compute_jewelry ⟨some [], some [("rent", 100)]⟩).pnl.profit_before_tax = -100 ∧
    (compute_retail ⟨none, none⟩).pnl.revenue = 0 := by
  have h := break_even_from_first_item ⟨some [], some [("rent", 100)]⟩ ⟨none, none⟩
  refine ⟨(h.2.2.1 rfl).2.2.1, ?_, (h.2.2.2 rfl).1⟩
  have h2 := (h.2.2.1 rfl).2.2.2
  simpa [sum_overheads] using h2

/-- C4: aggregate_results sums revenue, variable costs and fixed costs over
the three segment PnL records; profit_before_tax is derived from those
sums; tax_expense is 0 when profit_before_tax ≤ 0 and
profit_before_tax × profit_tax_rate (rate defaulting to 0 when absent)
when profit_before_tax > 0; profit_after_tax =
profit_before_tax − tax_expense. -/
theorem aggregate_tax_rules (j : JewelryOutput) (y : YogaOutput)
    (r : RetailOutput) (tax : TaxConfig) :
    (aggregate_results j y r tax).revenue =
      j.pnl.revenue + y.pnl.revenue + r.pnl.revenue ∧
    (aggregate_results j y r tax).variable_costs =
      j.pnl.variable_costs + y.pnl.variable_costs + r.pnl.variable_costs ∧
    (aggregate_results j y r tax).fixed_costs =
      j.pnl.fixed_costs + y.pnl.fixed_costs + r.pnl.fixed_costs ∧
    (aggregate_results j y r tax).profit_before_tax =
      ((aggregate_results j y r tax).revenue -
        (aggregate_results j y r tax).variable_costs) -
        (aggregate_results j y r tax).fixed_costs ∧
    ((aggregate_results j y r tax).profit_before_tax ≤ 0 →
      (aggregate_results j y r tax).tax_expense = 0) ∧
    (0 < (aggregate_results j y r tax).profit_before_tax →
      (aggregate_results j y r tax).tax_expense =
        (aggregate_results j y r tax).profit_before_tax *
          tax.profit_tax_rate.getD 0) ∧
    (aggregate_results j y r tax).profit_after_tax =
      (aggregate_results j y r tax).profit_before_tax -
        (aggregate_results j y r tax).tax_expense := by
  refine ⟨rfl, rfl, rfl, rfl, ?_, ?_, rfl⟩
  · intro h
    simp only [aggregate_results] at h ⊢
    exact if_neg (not_lt.mpr h)
  · intro h
    simp only [aggregate_results] at h ⊢
    exact if_pos h

/-- C4 witness: three segments each with revenue 1000, variable costs 400
and fixed costs 200 under tax rate 0.2 give consolidated profit before tax
1200, tax expense 240 and profit after tax 960. -/
theorem aggregate_tax_rules_witness :
    (aggregate_results jewelryOutScenC yogaOutScenC retailOutScenC taxScenC).profit_before_tax = 1200 ∧
    (aggregate_results jewelryOutScenC yogaOutScenC retailOutScenC taxScenC).tax_expense = 240 ∧
    (aggregate_results jewelryOutScenC yogaOutScenC retailOutScenC taxScenC).profit_after_tax = 960 := by
  have h := aggregate_tax_rules jewelryOutScenC yogaOutScenC retailOutScenC taxScenC
  have hpbt :
      (aggregate_results jewelryOutScenC yogaOutScenC retailOutScenC taxScenC).profit_before_tax = 1200 := by
    norm_num [aggregate_results, jewelryOutScenC, yogaOutScenC, retailOutScenC, taxScenC, pnlScenC]
  have hpos :
      (0 : ℚ) < (aggregate_results jewelryOutScenC yogaOutScenC retailOutScenC taxScenC).profit_before_tax := by
    rw [hpbt]; norm_num
  have htax :
      (aggregate_results jewelryOutScenC yogaOutScenC retailOutScenC taxScenC).tax_expense = 240 := by
    rw [h.2.2.2.2.2.1 hpos, hpbt]
    norm_num [taxScenC]
  refine ⟨hpbt, htax, ?_⟩
  rw [h.2.2.2.2.2.2, hpbt, htax]
  norm_num

/-- Per-item guard facts for the jewelry loop body: margin_per_unit is the
guarded quotient and break_even_units is the guarded division by it. -/
theorem jewelry_item_guards (fc : ℚ) (c : LineItem) :
    ((jewelryChannelResult fc c).sold_units = 0 →
      (jewelryChannelResult fc c).margin_per_unit = 0) ∧
    ((jewelryChannelResult fc c).sold_units ≠ 0 →
      (jewelryChannelResult fc c).margin_per_unit =
        (jewelryChannelResult fc c).contribution / (jewelryChannelResult fc c).sold_units) ∧
    ((jewelryChannelResult fc c).break_even_units = none ↔
      (jewelryChannelResult fc c).margin_per_unit ≤ 0) ∧
    (0 < (jewelryChannelResult fc c).margin_per_unit →
      (jewelryChannelResult fc c).break_even_units =
        some (fc / (jewelryChannelResult fc c).margin_per_unit)) := by
  simp only [jewelryChannelResult]
  refine ⟨fun h => by rw [if_pos h], fun h => by rw [if_neg h],
    break_even_none_iff _ _, fun h => by rw [if_pos h]⟩

/-- Per-item guard facts for the retail loop body. -/
theorem retail_item_guards (fc : ℚ) (c : LineItem) :
    ((retailCategoryResult fc c).sold_units = 0 →
      (retailCategoryResult fc c).margin_per_unit = 0) ∧
    ((retailCategoryResult fc c).sold_units ≠ 0 →
      (retailCategoryResult fc c).margin_per_unit =
        (retailCategoryResult fc c).contribution / (retailCategoryResult fc c).sold_units) ∧
    ((retailCategoryResult fc c).break_even_units = none ↔
      (retailCategoryResult fc c).margin_per_unit ≤ 0) ∧
    (0 < (retailCategoryResult fc c).margin_per_unit →
      (retailCategoryResult fc c).break_even_units =
        some (fc / (retailCategoryResult fc c).margin_per_unit)) := by
  simp only [retailCategoryResult]
  refine ⟨fun h => by rw [if_pos h], fun h => by rw [if_neg h],
    break_even_none_iff _ _, fun h => by rw [if_pos h]⟩

/-- C5: for every line-item result of compute_jewelry or compute_retail,
margin_per_unit is contribution / sold_units when sold_units is non-zero
and 0 otherwise; break_even_units is none exactly when
margin_per_unit ≤ 0, and equals fixed_costs / margin_per_unit (with the
segment-level fixed-cost total) when margin_per_unit > 0, so the guarded
divisions never divide by a zero or non-positive denominator. -/
theorem margin_break_even_per_item (jc : JewelryConfig) (rc : RetailConfig)
    (a b : ItemResult)
    (ha : a ∈ (compute_jewelry jc).channels)
    (hb : b ∈ (compute_retail rc).categories) :
    ((a.sold_units = 0 → a.margin_per_unit = 0) ∧
     (a.sold_units ≠ 0 → a.margin_per_unit = a.contribution / a.sold_units) ∧
     (a.break_even_units = none ↔ a.margin_per_unit ≤ 0) ∧
     (0 < a.margin_per_unit →
       a.break_even_units =
         some (sum_overheads (jc.overheads.getD []) / a.margin_per_unit))) ∧
    ((b.sold_units = 0 → b.margin_per_unit = 0) ∧
     (b.sold_units ≠ 0 → b.margin_per_unit = b.contribution / b.sold_units) ∧
     (b.break_even_units = none ↔ b.margin_per_unit ≤ 0) ∧
     (0 < b.margin_per_unit →
       b.break_even_units =
         some (sum_overheads (rc.overheads.getD []) / b.margin_per_unit))) := by
  simp only [compute_jewelry_eq] at ha
  simp only [compute_retail_eq] at hb
  obtain ⟨c, _, rfl⟩ := List.mem_map.mp ha
  obtain ⟨d, _, rfl⟩ := List.mem_map.mp hb
  exact ⟨jewelry_item_guards _ c, retail_item_guards _ d⟩

/-- C5 witness: for the profitable item (10 units, price 5, unit cost 1)
under overheads of 20, the break-even is fixed costs over the margin
per unit. -/
theorem margin_break_even_per_item_witness :
    (jewelryChannelResult 20 itemProfitable).break_even_units =
      some (sum_overheads [("rent", 20)] / (jewelryChannelResult 20 itemProfitable).margin_per_unit) ∧
    (retailCategoryResult 20 itemProfitable).break_even_units =
      some (sum_overheads [("rent", 20)] / (retailCategoryResult 20 itemProfitable).margin_per_unit) := by
  have hmj : jewelryChannelResult 20 itemProfitable ∈
      (compute_jewelry ⟨some [itemProfitable], some [("rent", 20)]⟩).channels := by
    simp [compute_jewelry_eq, sum_overheads]
  have hmr : retailCategoryResult 20 itemProfitable ∈
      (compute_retail ⟨some [itemProfitable], some [("rent", 20)]⟩).categories := by
    simp [compute_retail_eq, sum_overheads]
  have h := margin_break_even_per_item ⟨some [itemProfitable], some [("rent", 20)]⟩
    ⟨some [itemProfitable], some [("rent", 20)]⟩
    (jewelryChannelResult 20 itemProfitable) (retailCategoryResult 20 itemProfitable) hmj hmr
  have hmarg : (0 : ℚ) < (jewelryChannelResult 20 itemProfitable).margin_per_unit := by
    norm_num [jewelryChannelResult, itemProfitable]
  have hmarg2 : (0 : ℚ) < (retailCategoryResult 20 itemProfitable).margin_per_unit := by
    norm_num [retailCategoryResult, itemProfitable]
  exact ⟨h.1.2.2.2 hmarg, h.2.2.2.2 hmarg2⟩

/-- C6: compute_yoga populates break_even_fill_rate with
max(fixed_costs − corporate_contribution, 0) / contribution_per_attendee
/ (public_slots × capacity) exactly when contribution_per_attendee > 0 and
public_slots × capacity > 0, where contribution_per_attendee =
effective_price × (1 − trainer_payout_rate − payment_fee_rate) −
variable_cost_per_attendee; otherwise the field is none. -/
theorem yoga_break_even_fill_rate (config : YogaConfig) :
    ((config.pricing.bind (fun p => p.single_class_price)).getD 0 *
          (1 - (config.pricing.bind (fun p => p.discount_rate)).getD 0) *
          (1 - config.trainer_payout_rate.getD 0 - config.payment_fee_rate.getD 0) -
          config.variable_cost_per_attendee.getD 0 > 0 ∧
      (compute_yoga config).operating_assumptions.public_slots * config.capacity.getD 0 > 0 →
      (compute_yoga config).pnl.break_even_fill_rate =
        some (max ((compute_yoga config).pnl.fixed_costs -
            (compute_yoga config).corporate.contribution) 0 /
          ((config.pricing.bind (fun p => p.single_class_price)).getD 0 *
            (1 - (config.pricing.bind (fun p => p.discount_rate)).getD 0) *
            (1 - config.trainer_payout_rate.getD 0 - config.payment_fee_rate.getD 0) -
            config.variable_cost_per_attendee.getD 0) /
          ((compute_yoga config).operating_assumptions.public_slots * config.capacity.getD 0))) ∧
    (¬ ((config.pricing.bind (fun p => p.single_class_price)).getD 0 *
          (1 - (config.pricing.bind (fun p => p.discount_rate)).getD 0) *
          (1 - config.trainer_payout_rate.getD 0 - config.payment_fee_rate.getD 0) -
          config.variable_cost_per_attendee.getD 0 > 0 ∧
        (compute_yoga config).operating_assumptions.public_slots * config.capacity.getD 0 > 0) →
      (compute_yoga config).pnl.break_even_fill_rate = none) := by
  constructor
  · intro h
    simp only [compute_yoga] at h ⊢
    rw [if_pos h]
  · intro h
    simp only [compute_yoga] at h ⊢
    rw [if_neg h]

/-- C6 witness: for the profitable yoga configuration (price 20, no fees,
100 public slots, capacity 10, rent 500) the break-even fill rate is
500 / 20 / 1000 = 1/40. -/
theorem yoga_break_even_fill_rate_witness :
    (compute_yoga yogaCfgProfitable).pnl.break_even_fill_rate = some (1 / 40) := by
  have h := (yoga_break_even_fill_rate yogaCfgProfitable).1
  have hps : (compute_yoga yogaCfgProfitable).operating_assumptions.public_slots = 100 := by
    norm_num [compute_yoga, yogaCfgProfitable, dictGet, CVal.truthy, CVal.toNum, max_def]
  have hfc : (compute_yoga yogaCfgProfitable).pnl.fixed_costs = 500 := by
    norm_num [compute_yoga, yogaCfgProfitable, sum_overheads]
  have hcc : (compute_yoga yogaCfgProfitable).corporate.contribution = 0 := by
    norm_num [compute_yoga, yogaCfgProfitable, dictGet, CVal.toNum]
  rw [h ⟨by norm_num [yogaCfgProfitable], by rw [hps]; norm_num [yogaCfgProfitable]⟩]
  rw [hps, hfc, hcc]
  norm_num [yogaCfgProfitable, max_def]

/-- C7: compute_jewelry on a channels list and compute_retail on the same
list as categories, with the same overhead map, produce the same PnL, the
same overhead detail and itemwise equal numeric results; the item names
differ only through the default placeholder (channel versus category) used
when a name is missing. -/
theorem jewelry_retail_equivalent (L : List LineItem) (O : List (String × ℚ)) :
    (compute_jewelry ⟨some L, some O⟩).pnl = (compute_retail ⟨some L, some O⟩).pnl ∧
    (compute_jewelry ⟨some L, some O⟩).fixed_costs_detail =
      (compute_retail ⟨some L, some O⟩).fixed_costs_detail ∧
    ((compute_jewelry ⟨some L, some O⟩).channels.map (fun r => r.gross_revenue) =
      (compute_retail ⟨some L, some O⟩).categories.map (fun r => r.gross_revenue)) ∧
    ((compute_jewelry ⟨some L, some O⟩).channels.map (fun r => r.net_revenue) =
      (compute_retail ⟨some L, some O⟩).categories.map (fun r => r.net_revenue)) ∧
    ((compute_jewelry ⟨some L, some O⟩).channels.map (fun r => r.sold_units) =
      (compute_retail ⟨some L, some O⟩).categories.map (fun r => r.sold_units)) ∧
    ((compute_jewelry ⟨some L, some O⟩).channels.map (fun r => r.variable_costs) =
      (compute_retail ⟨some L, some O⟩).categories.map (fun r => r.variable_costs)) ∧
    ((compute_jewelry ⟨some L, some O⟩).channels.map (fun r => r.contribution) =
      (compute_retail ⟨some L, some O⟩).categories.map (fun r => r.contribution)) ∧
    ((compute_jewelry ⟨some L, some O⟩).channels.map (fun r => r.margin_per_unit) =
      (compute_retail ⟨some L, some O⟩).categories.map (fun r => r.margin_per_unit)) ∧
    ((compute_jewelry ⟨some L, some O⟩).channels.map (fun r => r.break_even_units) =
      (compute_retail ⟨some L, some O⟩).categories.map (fun r => r.break_even_units)) ∧
    ((compute_jewelry ⟨some L, some O⟩).channels.map (fun r => r.name) =
      L.map (fun c => c.name.getD "channel")) ∧
    ((compute_retail ⟨some L, some O⟩).categories.map (fun r => r.name) =
      L.map (fun c => c.name.getD "category")) := by
  have hnet : (L.map fun c => (jewelryChannelResult (sum_overheads O) c).net_revenue) =
      (L.map fun c => (retailCategoryResult (sum_overheads O) c).net_revenue) :=
    List.map_congr_left fun c _ => rfl
  have hvar : (L.map fun c => (jewelryChannelResult (sum_overheads O) c).variable_costs) =
      (L.map fun c => (retailCategoryResult (sum_overheads O) c).variable_costs) :=
    List.map_congr_left fun c _ => rfl
  have hbe : (match L.map (jewelryChannelResult (sum_overheads O)) with
      | [] => none
      | r :: _ => r.break_even_units) =
      (match L.map (retailCategoryResult (sum_overheads O)) with
      | [] => none
      | r :: _ => r.break_even_units) := by
    cases L <;> rfl
  refine ⟨?_, rfl, ?_, ?_, ?_, ?_, ?_, ?_, ?_, ?_, ?_⟩
  · simp only [compute_jewelry_eq, compute_retail_eq, Option.getD_some]
    rw [hnet, hvar, hbe]
  all_goals
    simp only [compute_jewelry_eq, compute_retail_eq, Option.getD_some, List.map_map]
  all_goals
    exact List.map_congr_left fun c _ => rfl

/-- C8: Scenario B of the spec: 4 slots per day, 5 days per week, 4.3 weeks
per month, fill rate 0.6, capacity 10, price 20, no discount, no fees, no
corporate days and no overheads give total_slots 86, public_slots 86,
avg_attendees 6, total_attendees 516, revenue 10320 and profit before tax
10320. -/
theorem yoga_scenario_b :
    (compute_yoga yogaCfgScenB).operating_assumptions.total_slots = 86 ∧
    (compute_yoga yogaCfgScenB).operating_assumptions.public_slots = 86 ∧
    (compute_yoga yogaCfgScenB).operating_assumptions.avg_attendees = 6 ∧
    (compute_yoga yogaCfgScenB).operating_assumptions.total_attendees = 516 ∧
    (compute_yoga yogaCfgScenB).pnl.revenue = 10320 ∧
    (compute_yoga yogaCfgScenB).pnl.profit_before_tax = 10320 := by
  have h1 : dictGet [("days_per_month", CVal.num 0)] "public_slots_replaced" = none := rfl
  have h2 : dictGet [("days_per_month", CVal.num 0)] "days_per_month" =
      some (CVal.num 0) := rfl
  refine ⟨?_, ?_, ?_, ?_, ?_, ?_⟩ <;>
    norm_num [compute_yoga, yogaCfgScenB, h1, h2, CVal.truthy, CVal.toNum, max_def,
      sum_overheads]

/-- C9 counterexample: a line item with units −10 and return rate 1/2 (a
rate inside [0,1]) yields sold_units −5, which is strictly greater than
the gross units, so the claim fails without a non-negativity assumption on
units. -/
theorem sold_units_le_gross_counterexample :
    ((compute_jewelry ⟨some [itemNegUnits], none⟩).channels.map (fun r => r.sold_units)) =
      [-5] ∧
    (0 : ℚ) ≤ itemNegUnits.return_rate.getD 0 ∧
    itemNegUnits.return_rate.getD 0 ≤ 1 ∧
    ¬ ((-5 : ℚ) ≤ itemNegUnits.units.getD 0) := by
  refine ⟨?_, by norm_num [itemNegUnits], by norm_num [itemNegUnits],
    by norm_num [itemNegUnits]⟩
  norm_num [compute_jewelry_eq, jewelryChannelResult, itemNegUnits]

/-- C9 amended: for every line item with non-negative units and a return
rate in [0,1], the computed sold_units is at most the gross units, in both
compute_jewelry and compute_retail. -/
theorem sold_units_le_gross (jc : JewelryConfig) (rc : RetailConfig)
    (hj : ∀ c ∈ jc.channels.getD [], 0 ≤ c.units.getD 0 ∧
      0 ≤ c.return_rate.getD 0 ∧ c.return_rate.getD 0 ≤ 1)
    (hr : ∀ c ∈ rc.categories.getD [], 0 ≤ c.units.getD 0 ∧
      0 ≤ c.return_rate.getD 0 ∧ c.return_rate.getD 0 ≤ 1) :
    List.Forall₂ (fun c r => r.sold_units ≤ c.units.getD 0)
      (jc.channels.getD []) (compute_jewelry jc).channels ∧
    List.Forall₂ (fun c r => r.sold_units ≤ c.units.getD 0)
      (rc.categories.getD []) (compute_retail rc).categories := by
  constructor
  · simp only [compute_jewelry_eq]
    rw [List.forall₂_map_right_iff, List.forall₂_same]
    intro c hc
    obtain ⟨hu, h0, h1⟩ := hj c hc
    simp only [jewelryChannelResult]
    nlinarith [mul_nonneg hu h0]
  · simp only [compute_retail_eq]
    rw [List.forall₂_map_right_iff, List.forall₂_same]
    intro c hc
    obtain ⟨hu, h0, h1⟩ := hr c hc
    simp only [retailCategoryResult]
    nlinarith [mul_nonneg hu h0]

/-- C9 witness: for the Scenario A line item (100 units, return rate 1/20)
sold units do not exceed gross units in either segment. -/
theorem sold_units_le_gross_witness :
    List.Forall₂ (fun c r => r.sold_units ≤ c.units.getD 0)
      [itemScenA] (compute_jewelry ⟨some [itemScenA], none⟩).channels ∧
    List.Forall₂ (fun c r => r.sold_units ≤ c.units.getD 0)
      [itemScenA] (compute_retail ⟨some [itemScenA], none⟩).categories := by
  have hone : ∀ c ∈ [itemScenA], 0 ≤ c.units.getD 0 ∧
      0 ≤ c.return_rate.getD 0 ∧ c.return_rate.getD 0 ≤ 1 := by
    intro c hc
    rw [List.mem_singleton] at hc
    subst hc
    refine ⟨by norm_num [itemScenA], by norm_num [itemScenA], by norm_num [itemScenA]⟩
  exact sold_units_le_gross ⟨some [itemScenA], none⟩ ⟨some [itemScenA], none⟩ hone hone

/-- C10: aggregate_results depends only on the revenue, variable_costs and
fixed_costs fields of the three segment PnL records and on the tax
configuration: two triples of segment outputs agreeing on those nine
numbers yield identical aggregate outputs, whatever their other fields
hold. -/
theorem aggregate_depends_only_on_pnl_sums
    (j₁ j₂ : JewelryOutput) (y₁ y₂ : YogaOutput) (r₁ r₂ : RetailOutput)
    (tax : TaxConfig)
    (hjr : j₁.pnl.revenue = j₂.pnl.revenue)
    (hjv : j₁.pnl.variable_costs = j₂.pnl.variable_costs)
    (hjf : j₁.pnl.fixed_costs = j₂.pnl.fixed_costs)
    (hyr : y₁.pnl.revenue = y₂.pnl.revenue)
    (hyv : y₁.pnl.variable_costs = y₂.pnl.variable_costs)
    (hyf : y₁.pnl.fixed_costs = y₂.pnl.fixed_costs)
    (hrr : r₁.pnl.revenue = r₂.pnl.revenue)
    (hrv : r₁.pnl.variable_costs = r₂.pnl.variable_costs)
    (hrf : r₁.pnl.fixed_costs = r₂.pnl.fixed_costs) :
    aggregate_results j₁ y₁ r₁ tax = aggregate_results j₂ y₂ r₂ tax := by
  simp only [aggregate_results, hjr, hjv, hjf, hyr, hyv, hyf, hrr, hrv, hrf]

/-- C10 witness: the Scenario C outputs and the alternative outputs, which
differ in per-item details, break-even fields, derived PnL fields and
overhead detail but agree on the nine summed numbers, aggregate
identically. -/
theorem aggregate_depends_only_on_pnl_sums_witness :
    aggregate_results jewelryOutScenC yogaOutScenC retailOutScenC taxScenC =
      aggregate_results jewelryOutScenCAlt yogaOutScenCAlt retailOutScenCAlt taxScenC :=
  aggregate_depends_only_on_pnl_sums
    jewelryOutScenC jewelryOutScenCAlt yogaOutScenC yogaOutScenCAlt
    retailOutScenC retailOutScenCAlt taxScenC
    rfl rfl rfl rfl rfl rfl rfl rfl rfl

end UnitJEW
